import Mathlib

/-!
Shallow embedding of `src/windows/audio_ducking_manager.cpp` /
`audio_ducking_manager.h`: a Windows component that opts the current
process's audio sessions out of the OS default communications ducking.

Modelling conventions:
* COM `HRESULT`s are `Nat` holding the unsigned 32-bit code; success of a
  native call whose only relevant outcome is succeeded/failed is a `Bool`
  flag stored in the environment (the stubbed platform subsystem).
* A `Session` models one `IAudioSessionControl` entry of an endpoint's
  session enumerator, carrying the stub outcomes of each native call the
  code performs on it and the session's current ducking-preference value.
* `ULONG` reference counts are `Nat` reduced mod 2^32 where the code's
  `++`/`--` could wrap.
* Functions also return the observable events the claims talk about
  (whether `SetDuckingPreference` was invoked, teardown event traces).
-/

namespace AudioDucking

/-- Success code `S_OK` (0). -/
def S_OK : Nat := 0

/-- Failure code `E_POINTER` (0x80004003). -/
def E_POINTER : Nat := 2147500035

/-- Failure code `E_NOINTERFACE` (0x80004002). -/
def E_NOINTERFACE : Nat := 2147500034

/-- Modulus of a 32-bit `ULONG`. -/
def UINT32_MOD : Nat := 4294967296

/-- One audio session (`IAudioSessionControl`) as exposed by the stub
subsystem: the outcomes of the native calls the code makes on it, and its
current ducking-preference flag.
`getSessionOk`: `IAudioSessionEnumerator::GetSession` yields it;
`queryControl2Ok`: `QueryInterface(IAudioSessionControl2)` succeeds;
`pid`: `some p` when `GetProcessId` succeeds reading owner pid `p`;
`setPrefOk`: a `SetDuckingPreference(TRUE)` call would succeed;
`duckingPref`: the session's current ducking-opt-out preference value. -/
structure Session where
  getSessionOk : Bool
  queryControl2Ok : Bool
  pid : Option Nat
  setPrefOk : Bool
  duckingPref : Bool
  deriving DecidableEq, Repr

/-- Loop body of `AudioDuckingManager::ApplyOptOutToExistingSessions`
(lines 184-199) for one session: `GetSession`, `QueryInterface` to
`IAudioSessionControl2`, `GetProcessId`, and—when the pid equals the
current process id—`SetDuckingPreference(TRUE)`. Returns the session's
state afterwards and whether `SetDuckingPreference` was invoked. -/
def applySessionOptOut (myPid : Nat) (s : Session) : Session × Bool :=
  if s.getSessionOk then
    if s.queryControl2Ok then
      match s.pid with
      | some p =>
        if p = myPid then
          ({ s with duckingPref := if s.setPrefOk then true else s.duckingPref }, true)
        else (s, false)
      | none => (s, false)
    else (s, false)
  else (s, false)

/-- The code read the session's owning process id during the synchronous
pass: `GetSession`, the `IAudioSessionControl2` query and `GetProcessId`
all succeeded. -/
def pidReadSync (s : Session) : Bool :=
  s.getSessionOk && s.queryControl2Ok && s.pid.isSome

/-- Reference-counted notifier object (`SessionNotifier`), state is its
`std::atomic<ULONG> ref_count_`. -/
structure SessionNotifier where
  ref_count : Nat
  deriving DecidableEq, Repr

/-- The constructor `SessionNotifier() : ref_count_(1)`. -/
def newSessionNotifier : SessionNotifier := { ref_count := 1 }

/-- Interface ids a caller may pass to `QueryInterface`. -/
inductive IID where
  | IUnknown : IID
  | IAudioSessionNotification : IID
  | other : Nat → IID
  deriving DecidableEq, Repr

/-- The method `SessionNotifier::AddRef`: `return ++ref_count_;` (32-bit
increment). Returns the new object state and the returned count. -/
def SessionNotifier.AddRef (n : SessionNotifier) : SessionNotifier × Nat :=
  ({ ref_count := (n.ref_count + 1) % UINT32_MOD }, (n.ref_count + 1) % UINT32_MOD)

/-- The method `SessionNotifier::Release`: `ULONG r = --ref_count_;
if (r == 0) delete this; return r;`. The first component is `none` when
the object deleted itself. -/
def SessionNotifier.Release (n : SessionNotifier) : Option SessionNotifier × Nat :=
  ((if (n.ref_count + (UINT32_MOD - 1)) % UINT32_MOD = 0 then none
    else some { ref_count := (n.ref_count + (UINT32_MOD - 1)) % UINT32_MOD }),
   (n.ref_count + (UINT32_MOD - 1)) % UINT32_MOD)

/-- The method `SessionNotifier::QueryInterface` (lines 36-45). Second
component: `none` when `ppv` was not written (`E_POINTER` path),
`some true` when `*ppv` was set to the object, `some false` when `*ppv`
was set to `nullptr`. Third component is the returned `HRESULT`. -/
def SessionNotifier.QueryInterface (n : SessionNotifier) (riid : IID) (ppvValid : Bool) :
    SessionNotifier × Option Bool × Nat :=
  if ppvValid = false then (n, none, E_POINTER)
  else if riid = IID.IUnknown ∨ riid = IID.IAudioSessionNotification then
    ((n.AddRef).1, some true, S_OK)
  else (n, some false, E_NOINTERFACE)

/-- Result of the notifier callback: the new-session argument's state
afterwards, the returned `HRESULT`, and whether `SetDuckingPreference`
was invoked. -/
structure NotifyResult where
  session : Option Session
  hr : Nat
  prefCalled : Bool
  deriving DecidableEq, Repr

/-- The method `SessionNotifier::OnSessionCreated` (lines 60-76): null
check, `QueryInterface` to `IAudioSessionControl2`, `GetProcessId`, and
`SetDuckingPreference(TRUE)` when the pid equals the current process id;
always returns `S_OK`. (`getSessionOk` is not consulted here: the session
arrives as the callback argument, not through an enumerator.) -/
def SessionNotifier.OnSessionCreated (myPid : Nat) (new_session : Option Session) :
    NotifyResult :=
  match new_session with
  | none => { session := none, hr := S_OK, prefCalled := false }
  | some s =>
    if s.queryControl2Ok then
      match s.pid with
      | some p =>
        if p = myPid then
          { session := some { s with duckingPref := if s.setPrefOk then true else s.duckingPref },
            hr := S_OK, prefCalled := true }
        else { session := some s, hr := S_OK, prefCalled := false }
      | none => { session := some s, hr := S_OK, prefCalled := false }
    else { session := some s, hr := S_OK, prefCalled := false }

/-- Per-endpoint session container (`IAudioSessionManager2`) as exposed by
the stub subsystem. `getEnumeratorOk`: `GetSessionEnumerator` succeeds;
`getCountOk`: the session enumerator's `GetCount` succeeds; `sessions`:
the snapshot of sessions the enumerator exposes; `registerOk`:
`RegisterSessionNotification` would succeed. -/
structure SessionContainer where
  getEnumeratorOk : Bool
  getCountOk : Bool
  sessions : List Session
  registerOk : Bool
  deriving DecidableEq, Repr

/-- The method `AudioDuckingManager::ApplyOptOutToExistingSessions`
(lines 166-202): bail out when `GetSessionEnumerator` or `GetCount`
fails, otherwise run `applySessionOptOut` over the snapshot. -/
def ApplyOptOutToExistingSessions (myPid : Nat) (c : SessionContainer) : SessionContainer :=
  if c.getEnumeratorOk then
    if c.getCountOk then
      { c with sessions := c.sessions.map (fun s => (applySessionOptOut myPid s).1) }
    else c
  else c

/-- One endpoint (`IMMDevice`) of the device collection. `itemOk`:
`IMMDeviceCollection::Item` yields the device; `activateOk`:
`Activate(IAudioSessionManager2)` succeeds (the outcome of
`CreateSessionManagerForDevice`, lines 153-164); `container`: the
endpoint's session container. -/
structure Endpoint where
  itemOk : Bool
  activateOk : Bool
  container : SessionContainer
  deriving DecidableEq, Repr

/-- A registration record (`AudioDuckingManager::Registration`):
the retained `IAudioSessionManager2*` and `IAudioSessionNotification*`
handles, `none` standing for a null pointer. Handles are identified by
the index of the endpoint they came from. -/
structure Registration where
  manager2 : Option Nat
  notifier : Option Nat
  deriving DecidableEq, Repr

/-- The method `AudioDuckingManager::RegisterForNewSessions`
(lines 204-218) for the container of endpoint `idx`: create a
`SessionNotifier` (ref count one); when `RegisterSessionNotification`
succeeds, `AddRef` the manager and push the `{manager2, notifier}` pair;
otherwise `notifier->Release()` the sole reference. Returns the
registration list afterwards and the notifier's state (`none` when it
destroyed itself). -/
def RegisterForNewSessions (c : SessionContainer) (idx : Nat)
    (regs : List Registration) : List Registration × Option SessionNotifier :=
  if c.registerOk then
    (regs ++ [{ manager2 := some idx, notifier := some idx }], some newSessionNotifier)
  else
    (regs, (newSessionNotifier.Release).1)

/-- Outcome of `CoInitializeEx(nullptr, COINIT_MULTITHREADED)`:
succeeded, failed with `RPC_E_CHANGED_MODE`, or failed otherwise. -/
inductive CoInitResult where
  | ok : CoInitResult
  | changedMode : CoInitResult
  | otherFailure : CoInitResult
  deriving DecidableEq, Repr

/-- The stubbed platform audio subsystem as one initialization pass sees
it. `currentPid`: `GetCurrentProcessId()`; `coInitResult`: outcome of
`CoInitializeEx`; `createEnumeratorOk`: `CoCreateInstance` of
`MMDeviceEnumerator` succeeds; `enumEndpointsOk`: `EnumAudioEndpoints`
succeeds; `endpoints`: the active render endpoints of the collection. -/
structure AudioEnv where
  currentPid : Nat
  coInitResult : CoInitResult
  createEnumeratorOk : Bool
  enumEndpointsOk : Bool
  endpoints : List Endpoint
  deriving DecidableEq, Repr

/-- State of an `AudioDuckingManager` instance: `com_initialized_` and
`registrations_`. -/
structure AudioDuckingManager where
  com_initialized : Bool
  registrations : List Registration
  deriving DecidableEq, Repr

/-- Loop of `AudioDuckingManager::SetupForAllRenderDevices`
(lines 137-147), threading the endpoint index and the registration list:
for each endpoint, `Item`, `CreateSessionManagerForDevice`
(= `Activate`), then `ApplyOptOutToExistingSessions` and
`RegisterForNewSessions`. Returns the endpoints' states afterwards and
the final registration list. -/
def setupLoop (myPid : Nat) : List Endpoint → Nat → List Registration →
    List Endpoint × List Registration
  | [], _, regs => ([], regs)
  | e :: rest, idx, regs =>
    if e.itemOk && e.activateOk then
      let c := ApplyOptOutToExistingSessions myPid e.container
      let regs1 := (RegisterForNewSessions c idx regs).1
      let tail := setupLoop myPid rest (idx + 1) regs1
      ({ e with container := c } :: tail.1, tail.2)
    else
      let tail := setupLoop myPid rest (idx + 1) regs
      (e :: tail.1, tail.2)

/-- The method `AudioDuckingManager::SetupForAllRenderDevices`
(lines 116-151): bail out (leaving sessions and registrations untouched)
when `CoCreateInstance` or `EnumAudioEndpoints` fails, otherwise run the
per-endpoint loop. -/
def SetupForAllRenderDevices (env : AudioEnv) (regs : List Registration) :
    List Endpoint × List Registration :=
  if env.createEnumeratorOk then
    if env.enumEndpointsOk then
      setupLoop env.currentPid env.endpoints 0 regs
    else (env.endpoints, regs)
  else (env.endpoints, regs)

/-- The method `AudioDuckingManager::Initialize` (lines 101-114): when
`com_initialized_` is false, run `CoInitializeEx`, marking
`com_initialized_` only on success (`RPC_E_CHANGED_MODE` and other
failures proceed unmarked); then `SetupForAllRenderDevices`
unconditionally. Returns the instance's state and the endpoints' states
afterwards. -/
def Initialize (env : AudioEnv) (st : AudioDuckingManager) :
    AudioDuckingManager × List Endpoint :=
  let com1 := if st.com_initialized then true
              else match env.coInitResult with
                   | CoInitResult.ok => true
                   | _ => st.com_initialized
  let r := SetupForAllRenderDevices env st.registrations
  ({ com_initialized := com1, registrations := r.2 }, r.1)

/-- Iterate `Initialize` on the same subsystem, feeding each pass's
endpoint states back into the environment. -/
def InitializeN : Nat → AudioEnv → AudioDuckingManager →
    AudioDuckingManager × AudioEnv
  | 0, env, st => (st, env)
  | Nat.succ n, env, st =>
    let r := Initialize env st
    InitializeN n { env with endpoints := r.2 } r.1

/-- Observable teardown events of the destructor. -/
inductive Event where
  | unregister : Nat → Nat → Event
  | releaseNotifier : Nat → Event
  | releaseManager : Nat → Event
  | coUninitialize : Event
  deriving DecidableEq, Repr

/-- Loop body of `AudioDuckingManager::~AudioDuckingManager`
(lines 87-93) for one registration: `UnregisterSessionNotification` when
both handles are non-null, then `SafeRelease(&r.notifier)`, then
`SafeRelease(&r.manager2)` (a `SafeRelease` of a null handle emits
nothing). -/
def destructorRegEvents (r : Registration) : List Event :=
  (if r.manager2.isSome && r.notifier.isSome then
     [Event.unregister (r.manager2.getD 0) (r.notifier.getD 0)]
   else [])
  ++ (match r.notifier with
      | some n => [Event.releaseNotifier n]
      | none => [])
  ++ (match r.manager2 with
      | some m => [Event.releaseManager m]
      | none => [])

/-- The destructor `AudioDuckingManager::~AudioDuckingManager`
(lines 85-99): per-registration teardown, `registrations_.clear()`, and
`CoUninitialize` exactly when `com_initialized_`. Returns the event
trace and the instance's final state. -/
def destructor (st : AudioDuckingManager) : List Event × AudioDuckingManager :=
  (st.registrations.flatMap destructorRegEvents
     ++ (if st.com_initialized then [Event.coUninitialize] else []),
   { com_initialized := false, registrations := [] })

/-- A retain or release call on the notifier's reference count. -/
inductive RefOp where
  | retain : RefOp
  | release : RefOp
  deriving DecidableEq, Repr

/-- One `AddRef`/`Release` call on a live (`some`) or destroyed (`none`)
notifier, per the code of lines 47-57. -/
def refStep : Option SessionNotifier → RefOp → Option SessionNotifier
  | none, _ => none
  | some n, RefOp.retain => some (n.AddRef).1
  | some n, RefOp.release => (n.Release).1

/-- Run a sequence of retain/release calls on a freshly constructed
notifier (initial count one). -/
def runRefOps (ops : List RefOp) : Option SessionNotifier :=
  ops.foldl refStep (some newSessionNotifier)

/-- All intermediate reference counts stay positive when the calls in
`ops` run from count `c` (exact arithmetic, no wraparound). -/
def neverZeroFrom (c : Nat) : List RefOp → Bool
  | [] => true
  | RefOp.retain :: rest => neverZeroFrom (c + 1) rest
  | RefOp.release :: rest => decide (0 < c - 1) && neverZeroFrom (c - 1) rest

/-- An endpoint both passes of the loop succeed on: `Item` and `Activate`
succeeded and its container accepts the notification subscription, so
the pass records a registration for it. -/
def endpointRegisters (e : Endpoint) : Bool :=
  e.itemOk && e.activateOk && e.container.registerOk

/-- Number of registrations one `Initialize` pass records against `env`. -/
def regCount (env : AudioEnv) : Nat :=
  if env.createEnumeratorOk && env.enumEndpointsOk then
    (env.endpoints.filter endpointRegisters).length
  else 0

/-- Sample session owned by another process (pid 123), used to witness C2. -/
def sOther : Session :=
  { getSessionOk := true, queryControl2Ok := true, pid := some 123,
    setPrefOk := true, duckingPref := false }

/-- Sample endpoint whose every native call succeeds and whose container
holds one session of pid 1. -/
def epGood : Endpoint :=
  { itemOk := true, activateOk := true,
    container :=
      { getEnumeratorOk := true, getCountOk := true,
        sessions := [{ getSessionOk := true, queryControl2Ok := true,
                       pid := some 1, setPrefOk := true, duckingPref := false }],
        registerOk := true } }

/-- Sample subsystem where COM initialization fails outright and (as the
platform then guarantees) the device-enumerator creation fails too. -/
def envDown : AudioEnv :=
  { currentPid := 1, coInitResult := CoInitResult.otherFailure,
    createEnumeratorOk := false, enumEndpointsOk := true,
    endpoints := [epGood] }

/-- A freshly constructed manager instance. -/
def freshManager : AudioDuckingManager :=
  { com_initialized := false, registrations := [] }

/-! Theorems -/

/-- C1: in both the synchronous pass (`ApplyOptOutToExistingSessions`) and
the notification pass (`OnSessionCreated`), `SetDuckingPreference` is
invoked on a session exactly when its owning process id was successfully
read and equals the current process id; the synchronous pass examines
exactly the sessions of the container's snapshot. -/
theorem c1_ownership_filter (myPid : Nat) (s : Session) :
    ((applySessionOptOut myPid s).2 = true ↔
      (pidReadSync s = true ∧ s.pid = some myPid)) ∧
    ((SessionNotifier.OnSessionCreated myPid (some s)).prefCalled = true ↔
      (s.queryControl2Ok = true ∧ s.pid = some myPid)) ∧
    (∀ c : SessionContainer, c.getEnumeratorOk = true → c.getCountOk = true →
      (ApplyOptOutToExistingSessions myPid c).sessions =
        c.sessions.map fun t => (applySessionOptOut myPid t).1) := by
  refine ⟨?_, ?_, ?_⟩
  · rcases s with ⟨gs, qc, pid, sp, dp⟩
    cases gs <;> cases qc <;> rcases pid with _ | p <;>
      simp [applySessionOptOut, pidReadSync] <;>
      by_cases hp : p = myPid <;> simp [hp]
  · rcases s with ⟨gs, qc, pid, sp, dp⟩
    cases qc <;> rcases pid with _ | p <;>
      simp [SessionNotifier.OnSessionCreated] <;>
      by_cases hp : p = myPid <;> simp [hp]
  · intro c h1 h2
    simp [ApplyOptOutToExistingSessions, h1, h2]

/-- C2: a session whose owning process id differs from the current process
id is never touched: neither the synchronous pass's loop body nor
`OnSessionCreated` calls `SetDuckingPreference` on it, and its state (in
particular its ducking-preference value) is unchanged. -/
theorem c2_non_interference (myPid : Nat) (s : Session)
    (h : s.pid ≠ some myPid) :
    applySessionOptOut myPid s = (s, false) ∧
    SessionNotifier.OnSessionCreated myPid (some s) =
      { session := some s, hr := S_OK, prefCalled := false } := by
  constructor
  · rcases s with ⟨gs, qc, pid, sp, dp⟩
    cases gs <;> cases qc <;> rcases pid with _ | p <;>
      simp_all [applySessionOptOut]
  · rcases s with ⟨gs, qc, pid, sp, dp⟩
    cases qc <;> rcases pid with _ | p <;>
      simp_all [SessionNotifier.OnSessionCreated]

/-- Witness for C2 at the current pid 1 and a session owned by pid 123. -/
theorem c2_non_interference_witness :
    applySessionOptOut 1 sOther = (sOther, false) ∧
    SessionNotifier.OnSessionCreated 1 (some sOther) =
      { session := some sOther, hr := S_OK, prefCalled := false } :=
  c2_non_interference 1 sOther (by decide)

/-- C6: the notifier is constructed with reference count one; when
`RegisterSessionNotification` fails the creator releases that sole
reference (the notifier destroys itself) and no registration is
recorded; when it succeeds exactly one `{container, notifier}` pair is
appended to the registration list. -/
theorem c6_notifier_ownership (c : SessionContainer) (idx : Nat)
    (regs : List Registration) :
    newSessionNotifier.ref_count = 1 ∧
    (c.registerOk = false →
      RegisterForNewSessions c idx regs = (regs, none)) ∧
    (c.registerOk = true →
      RegisterForNewSessions c idx regs =
        (regs ++ [{ manager2 := some idx, notifier := some idx }],
         some newSessionNotifier)) := by
  refine ⟨rfl, ?_, ?_⟩ <;> intro h <;>
    simp [RegisterForNewSessions, h, SessionNotifier.Release,
      newSessionNotifier, UINT32_MOD]

/-- C9: with a valid out-pointer, `SessionNotifier::QueryInterface`
succeeds exactly for `IID_IUnknown` and
`IID_IAudioSessionNotification` — incrementing the reference count and
writing the object to `*ppv` — and answers `E_NOINTERFACE` with `*ppv`
nulled for every other interface id. -/
theorem c9_query_capability (n : SessionNotifier) (riid : IID) :
    ((SessionNotifier.QueryInterface n riid true).2.2 = S_OK ↔
      (riid = IID.IUnknown ∨ riid = IID.IAudioSessionNotification)) ∧
    ((riid = IID.IUnknown ∨ riid = IID.IAudioSessionNotification) →
      SessionNotifier.QueryInterface n riid true =
        ({ ref_count := (n.ref_count + 1) % UINT32_MOD }, some true, S_OK)) ∧
    (¬(riid = IID.IUnknown ∨ riid = IID.IAudioSessionNotification) →
      SessionNotifier.QueryInterface n riid true =
        (n, some false, E_NOINTERFACE)) := by
  by_cases hr : riid = IID.IUnknown ∨ riid = IID.IAudioSessionNotification <;>
    simp [SessionNotifier.QueryInterface, SessionNotifier.AddRef, hr,
      S_OK, E_NOINTERFACE]

/-- C10: `OnSessionCreated` returns `S_OK` on every invocation — whatever
the outcomes of the control-interface query and the process-id read —
and a null new-session argument yields an immediate successful return
with no preference change. -/
theorem c10_callback_always_ok (myPid : Nat) (os : Option Session) :
    (SessionNotifier.OnSessionCreated myPid os).hr = S_OK ∧
    SessionNotifier.OnSessionCreated myPid none =
      { session := none, hr := S_OK, prefCalled := false } := by
  constructor
  · rcases os with _ | s
    · rfl
    · rcases s with ⟨gs, qc, pid, sp, dp⟩
      cases qc <;> rcases pid with _ | p <;>
        simp [SessionNotifier.OnSessionCreated] <;>
        by_cases hp : p = myPid <;> simp [hp]
  · rfl

/-- Helper: retain/release calls on an already destroyed notifier leave it
destroyed. -/
theorem foldl_refStep_none (ops : List RefOp) : ops.foldl refStep none = none := by
  induction ops with
  | nil => rfl
  | cons op rest ih => exact ih

/-- Helper: running retain/release calls from a live count `c` (with no
32-bit wraparound possible) keeps the object alive exactly when every
intermediate count stays positive. -/
theorem foldl_refStep_spec (ops : List RefOp) (c : Nat) (h0 : 0 < c)
    (hb : c + ops.length < UINT32_MOD) :
    (ops.foldl refStep (some { ref_count := c }) ≠ none ↔
      neverZeroFrom c ops = true) := by
  induction ops generalizing c with
  | nil => simp [neverZeroFrom]
  | cons op rest ih =>
    cases op with
    | retain =>
      have hlt : c + 1 < UINT32_MOD := by
        simp [List.length_cons] at hb; omega
      have hstep : refStep (some { ref_count := c }) RefOp.retain =
          some { ref_count := c + 1 } := by
        simp [refStep, SessionNotifier.AddRef, Nat.mod_eq_of_lt hlt]
      rw [List.foldl_cons, hstep]
      have hrec := ih (c + 1) (by omega)
        (by simp [List.length_cons] at hb; omega)
      simpa [neverZeroFrom] using hrec
    | release =>
      have hcm : c < UINT32_MOD := by
        simp [List.length_cons] at hb; omega
      have hmod : (c + (UINT32_MOD - 1)) % UINT32_MOD = c - 1 := by
        simp [UINT32_MOD] at hcm ⊢; omega
      rcases Nat.lt_or_ge 1 c with hc | hc
      · have hne : c - 1 ≠ 0 := by omega
        have hstep : refStep (some { ref_count := c }) RefOp.release =
            some { ref_count := c - 1 } := by
          simp [refStep, SessionNotifier.Release, hmod, hne]
        rw [List.foldl_cons, hstep]
        have hrec := ih (c - 1) (by omega)
          (by simp [List.length_cons] at hb; omega)
        have hnz : (0 < c - 1) = True := by simp; omega
        simp [neverZeroFrom, hrec, hnz]
      · have hc1 : c = 1 := by omega
        subst hc1
        have hstep : refStep (some { ref_count := 1 }) RefOp.release = none := by
          simp [refStep, SessionNotifier.Release, hmod]
        rw [List.foldl_cons, hstep, foldl_refStep_none]
        simp [neverZeroFrom]

/-- C8: `Release` returns the remaining reference count and destroys the
object exactly when that count reaches zero; `AddRef` increments the
count; the initial count is one; hence along any sequence of
retain/release calls on a fresh notifier (shorter than the 32-bit
wraparound bound) the object is still alive exactly when no intermediate
count ever reached zero: it self-destructs on the last release and never
before. -/
theorem c8_release_semantics :
    newSessionNotifier.ref_count = 1 ∧
    (∀ c : Nat, 0 < c → c < UINT32_MOD →
      (SessionNotifier.Release { ref_count := c }).2 = c - 1 ∧
      ((SessionNotifier.Release { ref_count := c }).1 = none ↔ c = 1)) ∧
    (∀ c : Nat, c + 1 < UINT32_MOD →
      (SessionNotifier.AddRef { ref_count := c }).2 = c + 1) ∧
    (∀ ops : List RefOp, ops.length + 1 < UINT32_MOD →
      (runRefOps ops ≠ none ↔ neverZeroFrom 1 ops = true)) := by
  refine ⟨rfl, ?_, ?_, ?_⟩
  · intro c h0 hlt
    have hmod : (c + (UINT32_MOD - 1)) % UINT32_MOD = c - 1 := by
      simp [UINT32_MOD] at hlt ⊢; omega
    constructor
    · simp [SessionNotifier.Release, hmod]
    · rcases Nat.lt_or_ge 1 c with hc | hc
      · have hne : c - 1 ≠ 0 := by omega
        simp [SessionNotifier.Release, hmod, hne]
        omega
      · have hc1 : c = 1 := by omega
        subst hc1
        simp [SessionNotifier.Release, hmod]
  · intro c hlt
    simp [SessionNotifier.AddRef, Nat.mod_eq_of_lt hlt]
  · intro ops hlen
    have := foldl_refStep_spec ops 1 (by omega) (by omega)
    simpa [runRefOps, newSessionNotifier] using this

/-- Helper: the per-registration teardown never emits `CoUninitialize`. -/
theorem coUninit_not_in_regEvents (r : Registration) :
    Event.coUninitialize ∉ destructorRegEvents r := by
  rcases r with ⟨m, nn⟩
  rcases m with _ | m <;> rcases nn with _ | nn <;> simp [destructorRegEvents]

/-- C3: the destructor unsubscribes each recorded registration's notifier
from its session container before releasing either handle, releases
both, clears the registration set, and tears the COM context down
exactly when this instance marked `com_initialized_`. -/
theorem c3_teardown_order (st : AudioDuckingManager) :
    (∀ r ∈ st.registrations, ∀ m nn, r.manager2 = some m → r.notifier = some nn →
      destructorRegEvents r =
        [Event.unregister m nn, Event.releaseNotifier nn, Event.releaseManager m]) ∧
    (destructor st).2 = { com_initialized := false, registrations := [] } ∧
    (Event.coUninitialize ∈ (destructor st).1 ↔ st.com_initialized = true) ∧
    (destructor st).1 =
      st.registrations.flatMap destructorRegEvents ++
        (if st.com_initialized then [Event.coUninitialize] else []) := by
  refine ⟨?_, rfl, ?_, rfl⟩
  · intro r hr m nn hm hn
    simp [destructorRegEvents, hm, hn]
  · cases hcom : st.com_initialized <;>
      simp [destructor, hcom, List.mem_flatMap, coUninit_not_in_regEvents]

/-- Helper: the endpoint loop processes an appended list segmentwise, the
suffix starting at the index and registration list the prefix left. -/
theorem setupLoop_append (myPid : Nat) (l1 l2 : List Endpoint) (idx : Nat)
    (regs : List Registration) :
    setupLoop myPid (l1 ++ l2) idx regs =
      ((setupLoop myPid l1 idx regs).1 ++
         (setupLoop myPid l2 (idx + l1.length) (setupLoop myPid l1 idx regs).2).1,
       (setupLoop myPid l2 (idx + l1.length) (setupLoop myPid l1 idx regs).2).2) := by
  induction l1 generalizing idx regs with
  | nil => simp [setupLoop]
  | cons a l1 ih =>
    cases hc : a.itemOk && a.activateOk <;>
      simp [setupLoop, hc, ih, Nat.add_assoc, Nat.add_comm, Nat.add_left_comm]

/-- Helper: an endpoint failing `Item` or `Activate` is left untouched and
contributes no registration. -/
theorem setupLoop_skip (myPid : Nat) (e : Endpoint) (idx : Nat)
    (regs : List Registration) (he : e.itemOk = false ∨ e.activateOk = false) :
    setupLoop myPid [e] idx regs = ([e], regs) := by
  have hc : (e.itemOk && e.activateOk) = false := by
    rcases he with h | h <;> simp [h]
  simp [setupLoop, hc]

/-- C4: failure handling is local. A per-endpoint failure (`Item` or
`Activate`) skips exactly that endpoint: the endpoints before and after
it are processed exactly as they would be otherwise, at the same indices
and with the same registration threading, and the failed endpoint is
left untouched. A per-session failure (`GetSession`, the
`IAudioSessionControl2` query, or `GetProcessId`) leaves exactly that
session untouched with no `SetDuckingPreference` call; the snapshot's
other sessions are still processed (the pass is a pointwise map). The
embedded `Initialize` returns plain state — it has no failure return
value — so none of these outcomes reaches its caller. -/
theorem c4_failure_locality (myPid : Nat) :
    (∀ (l1 l2 : List Endpoint) (e : Endpoint) (idx : Nat)
        (regs : List Registration),
      e.itemOk = false ∨ e.activateOk = false →
      setupLoop myPid (l1 ++ e :: l2) idx regs =
        ((setupLoop myPid l1 idx regs).1 ++
           e :: (setupLoop myPid l2 (idx + l1.length + 1)
                   (setupLoop myPid l1 idx regs).2).1,
         (setupLoop myPid l2 (idx + l1.length + 1)
            (setupLoop myPid l1 idx regs).2).2)) ∧
    (∀ s : Session,
      s.getSessionOk = false ∨ s.queryControl2Ok = false ∨ s.pid = none →
      applySessionOptOut myPid s = (s, false)) ∧
    (∀ c : SessionContainer, c.getEnumeratorOk = true → c.getCountOk = true →
      (ApplyOptOutToExistingSessions myPid c).sessions =
        c.sessions.map fun s => (applySessionOptOut myPid s).1) := by
  refine ⟨?_, ?_, ?_⟩
  · intro l1 l2 e idx regs he
    have hmid : l1 ++ e :: l2 = l1 ++ ([e] ++ l2) := by simp
    rw [hmid, setupLoop_append, setupLoop_append,
      setupLoop_skip myPid e _ _ he]
    simp [Nat.add_assoc]
  · intro s hs
    rcases s with ⟨gs, qc, pid, sp, dp⟩
    rcases hs with h | h | h
    · simp_all [applySessionOptOut]
    · cases gs <;> simp_all [applySessionOptOut]
    · cases gs <;> cases qc <;> simp_all [applySessionOptOut]
  · intro c h1 h2
    simp [ApplyOptOutToExistingSessions, h1, h2]

/-- C5: when the subsystem is entirely unavailable — device-enumerator
creation or endpoint enumeration fails, or COM initialization fails
other than with `RPC_E_CHANGED_MODE` (in which case, as the platform
guarantees and hypothesis `hplat` records, instance creation fails
too) — `Initialize` returns normally with every session untouched and,
starting from an empty registration set, zero registrations held. -/
theorem c5_total_failure (env : AudioEnv) (st : AudioDuckingManager)
    (hplat : env.coInitResult = CoInitResult.otherFailure →
      env.createEnumeratorOk = false)
    (hfail : env.createEnumeratorOk = false ∨ env.enumEndpointsOk = false ∨
      env.coInitResult = CoInitResult.otherFailure)
    (hstart : st.registrations = []) :
    (Initialize env st).2 = env.endpoints ∧
    (Initialize env st).1.registrations = [] := by
  have hsub : env.createEnumeratorOk = false ∨ env.enumEndpointsOk = false := by
    rcases hfail with h | h | h
    · exact Or.inl h
    · exact Or.inr h
    · exact Or.inl (hplat h)
  have hsetup : SetupForAllRenderDevices env st.registrations =
      (env.endpoints, st.registrations) := by
    rcases hsub with h | h
    · simp [SetupForAllRenderDevices, h]
    · cases hce : env.createEnumeratorOk <;>
        simp [SetupForAllRenderDevices, h, hce]
  rw [hstart] at hsetup
  simp [Initialize, hstart, hsetup]

/-- Witness for C5 at a subsystem whose COM initialization and
device-enumerator creation fail, starting from a fresh instance. -/
theorem c5_total_failure_witness :
    (Initialize envDown freshManager).2 = envDown.endpoints ∧
    (Initialize envDown freshManager).1.registrations = [] :=
  c5_total_failure envDown freshManager (by decide) (by decide) (by decide)

/-- Helper: the opt-out pass never changes whether the container accepts
a notification subscription. -/
theorem applyOptOut_registerOk (myPid : Nat) (c : SessionContainer) :
    (ApplyOptOutToExistingSessions myPid c).registerOk = c.registerOk := by
  rcases c with ⟨ge, gc, ss, ro⟩
  cases ge <;> cases gc <;> simp [ApplyOptOutToExistingSessions]

/-- Helper: one run of the endpoint loop appends exactly one registration,
with both handles non-null, per endpoint that activates and subscribes. -/
theorem setupLoop_regs (myPid : Nat) (eps : List Endpoint) (idx : Nat)
    (regs : List Registration) :
    ∃ tail : List Registration,
      (setupLoop myPid eps idx regs).2 = regs ++ tail ∧
      tail.length = (eps.filter endpointRegisters).length ∧
      ∀ r ∈ tail, ∃ m nn, r.manager2 = some m ∧ r.notifier = some nn := by
  induction eps generalizing idx regs with
  | nil => exact ⟨[], by simp [setupLoop], by simp, by simp⟩
  | cons e rest ih =>
    cases hc : e.itemOk && e.activateOk with
    | false =>
      obtain ⟨tail, h1, h2, h3⟩ := ih (idx + 1) regs
      have hreg : endpointRegisters e = false := by
        simp [endpointRegisters, hc]
      refine ⟨tail, ?_, ?_, h3⟩
      · simp [setupLoop, hc, h1]
      · simp [List.filter_cons, hreg, h2]
    | true =>
      cases hro : e.container.registerOk with
      | false =>
        have hro2 : (ApplyOptOutToExistingSessions myPid e.container).registerOk
            = false := by rw [applyOptOut_registerOk]; exact hro
        obtain ⟨tail, h1, h2, h3⟩ := ih (idx + 1) regs
        have hreg : endpointRegisters e = false := by
          simp [endpointRegisters, hro]
        refine ⟨tail, ?_, ?_, h3⟩
        · simp [setupLoop, hc, RegisterForNewSessions, hro2, h1]
        · simp [List.filter_cons, hreg, h2]
      | true =>
        have hro2 : (ApplyOptOutToExistingSessions myPid e.container).registerOk
            = true := by rw [applyOptOut_registerOk]; exact hro
        obtain ⟨tail, h1, h2, h3⟩ :=
          ih (idx + 1) (regs ++ [{ manager2 := some idx, notifier := some idx }])
        have hand : e.itemOk = true ∧ e.activateOk = true := by simpa using hc
        have hreg : endpointRegisters e = true := by
          simp [endpointRegisters, hro, hand.1, hand.2]
        refine ⟨{ manager2 := some idx, notifier := some idx } :: tail, ?_, ?_, ?_⟩
        · simp [setupLoop, hc, RegisterForNewSessions, hro2, h1]
        · simp [List.filter_cons, hreg, h2]
        · intro r hr
          rcases List.mem_cons.mp hr with hr | hr
          · exact ⟨idx, idx, by simp [hr], by simp [hr]⟩
          · exact h3 r hr

/-- Helper: the endpoint loop preserves which endpoints would register
again on a repeated pass. -/
theorem setupLoop_filter (myPid : Nat) (eps : List Endpoint) (idx : Nat)
    (regs : List Registration) :
    ((setupLoop myPid eps idx regs).1.filter endpointRegisters).length =
      (eps.filter endpointRegisters).length := by
  induction eps generalizing idx regs with
  | nil => simp [setupLoop]
  | cons e rest ih =>
    cases hc : e.itemOk && e.activateOk with
    | false =>
      cases hre : endpointRegisters e <;>
        simp [setupLoop, hc, List.filter_cons, hre, ih]
    | true =>
      have hpe : endpointRegisters
          { e with container := ApplyOptOutToExistingSessions myPid e.container }
          = endpointRegisters e := by
        simp [endpointRegisters, applyOptOut_registerOk]
      cases hre : endpointRegisters e <;>
        simp [setupLoop, hc, List.filter_cons, hpe, hre, ih]

/-- Helper: one `Initialize` pass appends exactly `regCount env`
registrations, each with both handles non-null. -/
theorem Initialize_regs (env : AudioEnv) (st : AudioDuckingManager) :
    ∃ tail : List Registration,
      (Initialize env st).1.registrations = st.registrations ++ tail ∧
      tail.length = regCount env ∧
      ∀ r ∈ tail, ∃ m nn, r.manager2 = some m ∧ r.notifier = some nn := by
  cases hce : env.createEnumeratorOk with
  | false =>
    exact ⟨[], by simp [Initialize, SetupForAllRenderDevices, hce],
      by simp [regCount, hce], by simp⟩
  | true =>
    cases hee : env.enumEndpointsOk with
    | false =>
      exact ⟨[], by simp [Initialize, SetupForAllRenderDevices, hce, hee],
        by simp [regCount, hce, hee], by simp⟩
    | true =>
      obtain ⟨tail, h1, h2, h3⟩ :=
        setupLoop_regs env.currentPid env.endpoints 0 st.registrations
      refine ⟨tail, ?_, ?_, h3⟩
      · simp [Initialize, SetupForAllRenderDevices, hce, hee, h1]
      · simp [regCount, hce, hee, h2]

/-- Helper: a repeated pass on the resulting endpoint states would record
just as many registrations. -/
theorem Initialize_regCount (env : AudioEnv) (st : AudioDuckingManager) :
    regCount { env with endpoints := (Initialize env st).2 } = regCount env := by
  cases hce : env.createEnumeratorOk <;> cases hee : env.enumEndpointsOk <;>
    simp [regCount, Initialize, SetupForAllRenderDevices, hce, hee,
      setupLoop_filter]

/-- C7: `Initialize` is not a no-op when repeated: `n` calls append
exactly `n * regCount env` registrations (one per successfully activated
and subscribed endpoint per call) to the existing set, and every
appended registration holds both handles non-null, so the destructor
tears each one down with its own unsubscribe-then-release triple. -/
theorem c7_accumulating_registrations (n : Nat) (env : AudioEnv)
    (st : AudioDuckingManager) :
    ∃ tail : List Registration,
      (InitializeN n env st).1.registrations = st.registrations ++ tail ∧
      tail.length = n * regCount env ∧
      ∀ r ∈ tail, ∃ m nn, r.manager2 = some m ∧ r.notifier = some nn ∧
        destructorRegEvents r =
          [Event.unregister m nn, Event.releaseNotifier nn,
           Event.releaseManager m] := by
  induction n generalizing env st with
  | zero => exact ⟨[], by simp [InitializeN], by simp, by simp⟩
  | succ n ih =>
    obtain ⟨t1, h1, h2, h3⟩ := Initialize_regs env st
    obtain ⟨t2, g1, g2, g3⟩ :=
      ih { env with endpoints := (Initialize env st).2 } (Initialize env st).1
    refine ⟨t1 ++ t2, ?_, ?_, ?_⟩
    · simp only [InitializeN]
      rw [g1, h1, List.append_assoc]
    · rw [List.length_append, h2, g2, Initialize_regCount, Nat.succ_mul,
        Nat.add_comm]
    · intro r hr
      rcases List.mem_append.mp hr with hr | hr
      · obtain ⟨m, nn, hm, hn⟩ := h3 r hr
        exact ⟨m, nn, hm, hn, by simp [destructorRegEvents, hm, hn]⟩
      · exact g3 r hr

end AudioDucking
